import Mathlib

/-!
# Verification development for the FlixBus scraper (src/flix.py)

Shallow embedding of the scraper's data model and core logic:

* JSON values are modelled by the inductive `Json`; numbers are modelled
  exactly as rationals (Python floats/ints are embedded into `ℚ`/`ℤ`).
* Dictionary indexing `d[k]` (which raises `KeyError` when the key is
  absent) is `Json.getField`, returning `Except`; `d.get(k)` is
  `Json.getOpt`, returning `Option`.
* The entity dataclasses `Location`, `City`, `Station`, `SearchResult`
  are Lean structures typed per their dataclass annotations.
* `SearchResult.relevance`, `parse_city`, the parsing loop of
  `suggest_city`, `get_best_match`, and the query-parameter construction
  of `search_trips` / `get_search_analytics` are translated directly
  from the source.
* Python's stable `list.sort(key=..., reverse=True)` is modelled by
  `List.insertionSort` under the relation `relOrder` (descending
  relevance); insertion sort with this relation is a stable descending
  sort, matching CPython's documented sort semantics.
* The retry behaviour of `_make_request` is implemented by the external
  `tenacity` decorator (`stop_after_attempt(3)`,
  `wait_exponential(multiplier=1, min=4, max=10)`), whose code is not
  part of this repository; it is modelled from the spec by
  `backoff_wait` / `retry_go` / `make_request`.
-/

/-- JSON values as decoded by the JSON collaborator.  Numbers are
modelled exactly as rationals. -/
inductive Json where
  | null : Json
  | bool : Bool → Json
  | num : ℚ → Json
  | str : String → Json
  | arr : List Json → Json
  | obj : List (String × Json) → Json

/-- Python dictionary indexing `d[k]`: raises `KeyError` when the key is
absent and `TypeError` when the value is not a dictionary. -/
def Json.getField : Json → String → Except String Json
  | .obj fields, k =>
      match fields.lookup k with
      | some v => .ok v
      | none => .error ("KeyError: " ++ k)
  | _, k => .error ("TypeError: cannot index non-object with " ++ k)

/-- Python `d.get(k)`: `None` when the key is absent. -/
def Json.getOpt : Json → String → Option Json
  | .obj fields, k => fields.lookup k
  | _, _ => none

/-- Extract a string value (per the `str` annotation of the target
dataclass field). -/
def Json.asStr : Json → Except String String
  | .str s => .ok s
  | _ => .error "TypeError: expected string"

/-- Extract an integer value (per the `int` annotation of the target
dataclass field). -/
def Json.asInt : Json → Except String Int
  | .num q => if q.den = 1 then .ok q.num else .error "TypeError: expected integer"
  | _ => .error "TypeError: expected integer"

/-- Extract a numeric value (per the `float` annotation of the target
dataclass field). -/
def Json.asRat : Json → Except String ℚ
  | .num q => .ok q
  | _ => .error "TypeError: expected number"

/-- Extract a boolean value (per the `bool` annotation of the target
dataclass field). -/
def Json.asBool : Json → Except String Bool
  | .bool b => .ok b
  | _ => .error "TypeError: expected boolean"

/-- Extract a list of strings (per the `List[str]` annotation of the
target dataclass field). -/
def Json.asStrList : Json → Except String (List String)
  | .arr l => l.mapM Json.asStr
  | _ => .error "TypeError: expected list of strings"

/-- `Location` dataclass (src/flix.py:13). -/
structure Location where
  lat : ℚ
  lon : ℚ
  deriving DecidableEq

/-- `City` dataclass (src/flix.py:19). -/
structure City where
  id : ℤ
  uuid : String
  name : String
  country : String
  language : String
  location : Location
  slug : String
  search_volume : ℤ
  transportation_category : List String
  deriving DecidableEq

/-- `Station` dataclass (src/flix.py:39). -/
structure Station where
  id : String
  name : String
  legacy_id : ℤ
  importance_order : ℤ
  is_train : Bool
  deriving DecidableEq

/-- `SearchResult` dataclass (src/flix.py:48). -/
structure SearchResult where
  id : String
  name : String
  country : String
  district : Option String
  location : Location
  score : ℚ
  legacy_id : ℤ
  stations : List Station
  has_train_station : Bool
  is_flixbus_city : Bool
  timezone_offset_seconds : ℤ
  deriving DecidableEq

/-- `SearchResult.relevance` (src/flix.py:62-82), translated term by
term from the source. -/
def SearchResult.relevance (r : SearchResult) : ℚ :=
  let base_weight := r.score / 100
  let flixbus_bonus : ℚ := if r.is_flixbus_city then 0.2 else 0
  let station_bonus : ℚ := min ((r.stations.length : ℚ) * 0.1) 0.3
  let train_bonus : ℚ := if r.has_train_station then 0.1 else 0
  min (base_weight + flixbus_bonus + station_bonus + train_bonus) 1.0

/-- The relevance formula exactly as the spec states it (§4.3): a single
expression clamped above at 1.0.  Used to compare the source definition
against the spec's words. -/
def relevance_spec (r : SearchResult) : ℚ :=
  min (r.score / 100
      + (if r.is_flixbus_city then 0.2 else 0)
      + min ((r.stations.length : ℚ) * 0.1) 0.3
      + (if r.has_train_station then 0.1 else 0)) 1.0

/-- `FlixBusScraper.parse_city` (src/flix.py:231-256): strict dictionary
lookups for every required field, in source order. -/
def parse_city (city_data : Json) : Except String City := do
  let lat ← (← (← city_data.getField "location").getField "lat").asRat
  let lon ← (← (← city_data.getField "location").getField "lon").asRat
  let location : Location := ⟨lat, lon⟩
  let id ← (← city_data.getField "id").asInt
  let uuid ← (← city_data.getField "uuid").asStr
  let name ← (← city_data.getField "name").asStr
  let country ← (← city_data.getField "country").asStr
  let language ← (← city_data.getField "language").asStr
  let slug ← (← city_data.getField "slug").asStr
  let search_volume ← (← city_data.getField "search_volume").asInt
  let transportation_category ← (← city_data.getField "transportation_category").asStrList
  return ⟨id, uuid, name, country, language, location, slug,
          search_volume, transportation_category⟩

/-- The `Station(...)` construction inside `suggest_city`
(src/flix.py:384-393). -/
def parseStation (station : Json) : Except String Station := do
  let id ← (← station.getField "id").asStr
  let name ← (← station.getField "name").asStr
  let legacy_id ← (← station.getField "legacy_id").asInt
  let importance_order ← (← station.getField "importance_order").asInt
  let is_train ← (← station.getField "is_train").asBool
  return ⟨id, name, legacy_id, importance_order, is_train⟩

/-- `item.get("stations", [])` (src/flix.py:392): the station list
defaults to the empty list when the key is absent. -/
def getStationsList (item : Json) : Except String (List Json) :=
  match item.getOpt "stations" with
  | none => .ok []
  | some (.arr l) => .ok l
  | some _ => .error "TypeError: stations value is not iterable"

/-- The per-item parsing of `suggest_city` (src/flix.py:376-410):
`Location`, the `Station` list, then the `SearchResult` fields.
`item.get("district")` maps an absent (or null) district to `none`. -/
def parseSearchResult (item : Json) : Except String SearchResult := do
  let lat ← (← (← item.getField "location").getField "lat").asRat
  let lon ← (← (← item.getField "location").getField "lon").asRat
  let location : Location := ⟨lat, lon⟩
  let stationsRaw ← getStationsList item
  let stations ← stationsRaw.mapM parseStation
  let id ← (← item.getField "id").asStr
  let name ← (← item.getField "name").asStr
  let country ← (← item.getField "country").asStr
  let district ← match item.getOpt "district" with
    | none => pure (none : Option String)
    | some .null => pure (none : Option String)
    | some v => do pure (some (← v.asStr))
  let score ← (← item.getField "score").asRat
  let legacy_id ← (← item.getField "legacy_id").asInt
  let has_train_station ← (← item.getField "has_train_station").asBool
  let is_flixbus_city ← (← item.getField "is_flixbus_city").asBool
  let timezone_offset_seconds ← (← item.getField "timezone_offset_seconds").asInt
  return ⟨id, name, country, district, location, score, legacy_id,
          stations, has_train_station, is_flixbus_city, timezone_offset_seconds⟩

/-- The sort relation of `results.sort(key=lambda x: x.relevance,
reverse=True)` (src/flix.py:413): `a` may come before `b` iff
`b.relevance ≤ a.relevance` (descending). -/
def relOrder (a b : SearchResult) : Prop := b.relevance ≤ a.relevance

instance : DecidableRel relOrder :=
  fun a b => inferInstanceAs (Decidable (b.relevance ≤ a.relevance))

instance : IsTotal SearchResult relOrder :=
  ⟨fun a b => le_total b.relevance a.relevance⟩

instance : IsTrans SearchResult relOrder :=
  ⟨fun _ _ _ h1 h2 => le_trans h2 h1⟩

/-- `FlixBusScraper.suggest_city` (src/flix.py:371-415) from the decoded
response list onward: parse every item into a `SearchResult`, then sort
stably by relevance descending. -/
def suggest_city (response : List Json) : Except String (List SearchResult) := do
  let results ← response.mapM parseSearchResult
  return List.insertionSort relOrder results

/-- `FlixBusScraper.get_best_match` (src/flix.py:421-434):
`results[0] if results else None` over the `suggest_city` output for the
same response. -/
def get_best_match (response : List Json) : Except String (Option SearchResult) := do
  let results ← suggest_city response
  match results with
  | [] => return none
  | x :: _ => return some x

/-- A query-parameter value: Python strings and integers as they appear
in the params dictionaries. -/
inductive ParamValue where
  | s : String → ParamValue
  | i : Int → ParamValue
  deriving DecidableEq

/-- Python `int(b)` applied to a boolean (src/flix.py:224-226). -/
def pyInt (b : Bool) : Int := if b then 1 else 0

/-- A calendar date (the `datetime` arguments are used only through
`strftime`). -/
structure Date where
  year : Nat
  month : Nat
  day : Nat
  deriving DecidableEq

/-- Zero-padding to two digits, as `strftime` does for `%d` and `%m`. -/
def pad2 (n : Nat) : String := if n < 10 then "0" ++ toString n else toString n

/-- `datetime.strftime("%d.%m.%Y")` (src/flix.py:219). -/
def strftime_dmY (d : Date) : String :=
  pad2 d.day ++ "." ++ pad2 d.month ++ "." ++ toString d.year

/-- `datetime.strftime("%Y-%m-%d")` (src/flix.py:477-478). -/
def strftime_Ymd (d : Date) : String :=
  toString d.year ++ "-" ++ pad2 d.month ++ "-" ++ pad2 d.day

/-- `json.dumps({"adult": num_adults})` (src/flix.py:214,220), with
Python's default separators. -/
def json_dumps_products (num_adults : Int) : String :=
  "\x7b\"adult\": " ++ toString num_adults ++ "\x7d"

/-- The params dictionary built by `FlixBusScraper.search_trips`
(src/flix.py:216-227), in source order. -/
def search_trips_params (from_city_id to_city_id : String) (departure_date : Date)
    (num_adults : Int) (currency locale : String)
    (include_after_midnight disable_distribusion disable_global_trips : Bool) :
    List (String × ParamValue) :=
  [("from_city_id", .s from_city_id),
   ("to_city_id", .s to_city_id),
   ("departure_date", .s (strftime_dmY departure_date)),
   ("products", .s (json_dumps_products num_adults)),
   ("currency", .s currency),
   ("locale", .s locale),
   ("search_by", .s "cities"),
   ("include_after_midnight_rides", .i (pyInt include_after_midnight)),
   ("disable_distribusion_trips", .i (pyInt disable_distribusion)),
   ("disable_global_trips", .i (pyInt disable_global_trips))]

/-- The default metrics list of `get_search_analytics`
(src/flix.py:464-472). -/
def default_metrics : List String :=
  ["search_volume", "conversion_rate", "average_price", "occupancy_rate",
   "cancellation_rate", "mobile_searches", "desktop_searches"]

/-- The params dictionary built by `FlixBusScraper.get_search_analytics`
(src/flix.py:463-483).  `metrics = none` models the Python default
`metrics=None`, replaced by `default_metrics`; an explicitly supplied
list is joined as given. -/
def get_search_analytics_params (from_city_id to_city_id : String)
    (start_date end_date : Date) (granularity : String)
    (metrics : Option (List String)) (currency locale : String) :
    List (String × ParamValue) :=
  let ms := match metrics with
    | none => default_metrics
    | some l => l
  [("from_city_id", .s from_city_id),
   ("to_city_id", .s to_city_id),
   ("start_date", .s (strftime_Ymd start_date)),
   ("end_date", .s (strftime_Ymd end_date)),
   ("granularity", .s granularity),
   ("metrics", .s (String.intercalate "," ms)),
   ("currency", .s currency),
   ("locale", .s locale)]

/-- The two retryable failure kinds of `_make_request`
(src/flix.py:126-131): `requests.exceptions.RequestException`
(connection/timeout/non-2xx) and `json.JSONDecodeError` (body not valid
JSON). -/
inductive ReqError where
  | transport : ReqError
  | decode : ReqError
  deriving DecidableEq

/-- Modelled from the spec: the backoff wait of the retry policy wrapped
around `_make_request` (the `tenacity` decorator at src/flix.py:99 is
external to this repository).  Per §4.1, the delay before the retry
after the `n`-th failed attempt (`n` counted from 0) follows
`min(max(base * 2^n, minWait), maxWait)` with `minWait = 4`,
`maxWait = 10` and multiplier `base = 1`. -/
def backoff_wait (base n : Nat) : Nat := min (max (base * 2 ^ n) 4) 10

/-- Modelled from the spec: the retry driver.  `transport k` is the
outcome of the `k`-th attempt at the wrapped request body (a single GET
plus JSON decode); `fuel` is the number of attempts still allowed after
the current one.  Any failure with fuel remaining is retried after
recording the backoff wait; the last failure propagates. -/
def retry_go (transport : Nat → Except ReqError Json) (k fuel : Nat) :
    Except ReqError Json × List Nat :=
  match fuel with
  | 0 => (transport k, [])
  | fuel + 1 =>
      match transport k with
      | .ok v => (.ok v, [])
      | .error _ =>
          let rest := retry_go transport (k + 1) fuel
          (rest.1, backoff_wait 1 k :: rest.2)

/-- Modelled from the spec: `_make_request` under
`stop_after_attempt(3)` — at most 3 total attempts.  Returns the final
outcome together with the recorded backoff waits. -/
def make_request (transport : Nat → Except ReqError Json) :
    Except ReqError Json × List Nat :=
  retry_go transport 0 2

/-- The `suggest_city` call chain (src/flix.py:371-419): the retried
request (`_make_request`) followed by the parse step, which is outside
the retry decorator.  Errors are tagged: `.inl` for transport/decode
failures propagated out of the retry loop, `.inr` for parse errors. -/
def suggest_city_pipeline (transport : Nat → Except ReqError Json) :
    Except (ReqError ⊕ String) (List SearchResult) × List Nat :=
  match make_request transport with
  | (.error e, ws) => (.error (.inl e), ws)
  | (.ok body, ws) =>
      match body with
      | .arr items =>
          match suggest_city items with
          | .ok results => (.ok results, ws)
          | .error msg => (.error (.inr msg), ws)
      | _ => (.error (.inr "TypeError: response is not a list"), ws)

/-- A `SearchResult` with the ranking-relevant fields set and all other
fields fixed to arbitrary constants. -/
def mkResult (score : ℚ) (flix : Bool) (nStations : Nat) (train : Bool) :
    SearchResult :=
  ⟨"id", "name", "XX", none, ⟨0, 0⟩, score, 0,
   List.replicate nStations ⟨"s1", "station", 0, 0, false⟩, train, flix, 0⟩

/-- A well-formed autocomplete response item (all required keys, no
optional keys), scoring 50 with no bonuses. -/
def itemA : Json :=
  .obj [("location", .obj [("lat", .num 1), ("lon", .num 2)]),
        ("id", .str "a"), ("name", .str "Acity"), ("country", .str "NL"),
        ("score", .num 50), ("legacy_id", .num 11),
        ("has_train_station", .bool false), ("is_flixbus_city", .bool false),
        ("timezone_offset_seconds", .num 0)]

/-- The `SearchResult` that `itemA` parses to. -/
def resA : SearchResult :=
  ⟨"a", "Acity", "NL", none, ⟨1, 2⟩, 50, 11, [], false, false, 0⟩

/-- A second well-formed response item with the same relevance as
`itemA` (used to exercise sort stability). -/
def itemB : Json :=
  .obj [("location", .obj [("lat", .num 3), ("lon", .num 4)]),
        ("id", .str "b"), ("name", .str "Bcity"), ("country", .str "DE"),
        ("score", .num 50), ("legacy_id", .num 22),
        ("has_train_station", .bool false), ("is_flixbus_city", .bool false),
        ("timezone_offset_seconds", .num 3600)]

/-- The `SearchResult` that `itemB` parses to. -/
def resB : SearchResult :=
  ⟨"b", "Bcity", "DE", none, ⟨3, 4⟩, 50, 22, [], false, false, 3600⟩

/-- A well-formed city record (all required keys of `parse_city`). -/
def cityJsonA : Json :=
  .obj [("location", .obj [("lat", .num 52), ("lon", .num 5)]),
        ("id", .num 7), ("uuid", .str "u-7"), ("name", .str "Utrecht"),
        ("country", .str "NL"), ("language", .str "nl"),
        ("slug", .str "utrecht"), ("search_volume", .num 900),
        ("transportation_category", .arr [.str "bus", .str "train"])]

/-- The required top-level keys of `parse_city` (src/flix.py:241-255). -/
def cityRequiredKeys : List String :=
  ["location", "id", "uuid", "name", "country", "language", "slug",
   "search_volume", "transportation_category"]

/-- The required top-level keys of the `suggest_city` per-item parser
(src/flix.py:376-407); `district` and `stations` are the optional
ones. -/
def resultRequiredKeys : List String :=
  ["location", "id", "name", "country", "score", "legacy_id",
   "has_train_station", "is_flixbus_city", "timezone_offset_seconds"]

/-- The relevance computation written as the single clamped sum it
zeta-reduces to (used to rewrite `relevance` in proofs). -/
theorem relevance_formula (r : SearchResult) :
    r.relevance = min (r.score / 100 + (if r.is_flixbus_city then (0.2:ℚ) else 0)
      + min ((r.stations.length : ℚ) * 0.1) 0.3
      + (if r.has_train_station then (0.1:ℚ) else 0)) 1 := by
  simp only [SearchResult.relevance]
  norm_num

/-- C1: the claim asserts `relevance` lies in `[0, 1]` for ANY score
value; the code applies no lower clamp, so a negative input score drives
the relevance below 0.  Concretely, score `-100` with no bonuses gives
relevance `-1 < 0`. -/
theorem c1_counterexample : (mkResult (-100) false 0 false).relevance < 0 := by
  norm_num [mkResult, SearchResult.relevance, min_def]

/-- C1 (amended): the upper bound `relevance(r) ≤ 1` holds for every
`SearchResult`, and the lower bound `0 ≤ relevance(r)` holds whenever
the input score is non-negative (scores are on a 0-100 scale); it can
fail for negative scores since no lower clamp is applied. -/
theorem c1_theorem (r : SearchResult) :
    r.relevance ≤ 1 ∧ (0 ≤ r.score → 0 ≤ r.relevance) := by
  simp only [SearchResult.relevance]
  constructor
  · calc min (r.score / 100 + (if r.is_flixbus_city then (0.2:ℚ) else 0)
          + min ((r.stations.length : ℚ) * 0.1) 0.3
          + (if r.has_train_station then (0.1:ℚ) else 0)) 1.0 ≤ 1.0 :=
          min_le_right _ _
      _ ≤ 1 := by norm_num
  · intro h
    have hb : (0:ℚ) ≤ r.score / 100 := by positivity
    have hf : (0:ℚ) ≤ (if r.is_flixbus_city then (0.2:ℚ) else 0) := by
      split <;> norm_num
    have hs : (0:ℚ) ≤ min ((r.stations.length : ℚ) * 0.1) 0.3 := by
      apply le_min <;> positivity
    have ht : (0:ℚ) ≤ (if r.has_train_station then (0.1:ℚ) else 0) := by
      split <;> norm_num
    refine le_min (by linarith) (by norm_num)

/-- C1 witness: the amended bound instantiated at a concrete result with
score 50 and no bonuses. -/
theorem c1_witness :
    (mkResult 50 false 0 false).relevance ≤ 1
    ∧ (0 : ℚ) ≤ (mkResult 50 false 0 false).relevance :=
  ⟨(c1_theorem (mkResult 50 false 0 false)).1,
   (c1_theorem (mkResult 50 false 0 false)).2 (by norm_num [mkResult])⟩

/-- C2: the computed relevance agrees with the spec's closed formula for
every `SearchResult`, and the two worked examples hold: score 80 with
all three bonuses (2 stations) clamps to 1.0, and score 50 with no
bonuses gives 0.5. -/
theorem c2_theorem :
    (∀ r : SearchResult, r.relevance = relevance_spec r)
    ∧ (mkResult 80 true 2 true).relevance = 1.0
    ∧ (mkResult 50 false 0 false).relevance = 0.5 := by
  refine ⟨fun r => rfl, ?_, ?_⟩ <;>
    norm_num [mkResult, SearchResult.relevance, min_def]

/-- C4: the claim asserts the flag bonuses are always a strict exact
increase, but the upper clamp at 1.0 absorbs them: at score 100 the
relevance is already 1.0, so flipping `is_flixbus_city` (or
`has_train_station`) from false to true leaves it unchanged. -/
theorem c4_counterexample :
    (mkResult 100 true 0 false).relevance = (mkResult 100 false 0 false).relevance
    ∧ (mkResult 100 false 0 true).relevance = (mkResult 100 false 0 false).relevance := by
  norm_num [mkResult, SearchResult.relevance, min_def]

/-- C4 (amended): holding all other fields fixed, flipping
`is_flixbus_city` false→true increases `relevance` by exactly 0.2, and
flipping `has_train_station` false→true by exactly 0.1, provided the
flipped sum does not exceed the 1.0 clamp. -/
theorem c4_theorem (r : SearchResult) :
    (r.score / 100 + 0.2 + min ((r.stations.length : ℚ) * 0.1) 0.3
        + (if r.has_train_station then (0.1:ℚ) else 0) ≤ 1 →
      ({ r with is_flixbus_city := true } : SearchResult).relevance
        = ({ r with is_flixbus_city := false } : SearchResult).relevance + 0.2)
    ∧ (r.score / 100 + (if r.is_flixbus_city then (0.2:ℚ) else 0)
        + min ((r.stations.length : ℚ) * 0.1) 0.3 + 0.1 ≤ 1 →
      ({ r with has_train_station := true } : SearchResult).relevance
        = ({ r with has_train_station := false } : SearchResult).relevance + 0.1) := by
  constructor
  · intro h
    rw [relevance_formula, relevance_formula]
    simp only [Bool.false_eq_true, if_false, if_true]
    set B := min ((r.stations.length : ℚ) * 0.1) (0.3:ℚ) with hB
    set T := (if r.has_train_station then (0.1:ℚ) else 0) with hT
    rw [min_eq_left (by linarith), min_eq_left (by linarith)]
    ring
  · intro h
    rw [relevance_formula, relevance_formula]
    simp only [Bool.false_eq_true, if_false, if_true]
    set B := min ((r.stations.length : ℚ) * 0.1) (0.3:ℚ) with hB
    set F := (if r.is_flixbus_city then (0.2:ℚ) else 0) with hF
    rw [min_eq_left (by linarith), min_eq_left (by linarith)]
    ring

/-- C4 witness: the exact 0.2 and 0.1 increases at a concrete result
with score 30 and one station, where the clamp is not hit. -/
theorem c4_witness :
    ({ mkResult 30 false 1 false with is_flixbus_city := true } : SearchResult).relevance
      = ({ mkResult 30 false 1 false with is_flixbus_city := false } : SearchResult).relevance + 0.2
    ∧ ({ mkResult 30 false 1 false with has_train_station := true } : SearchResult).relevance
      = ({ mkResult 30 false 1 false with has_train_station := false } : SearchResult).relevance + 0.1 :=
  ⟨(c4_theorem (mkResult 30 false 1 false)).1
      (by norm_num [mkResult, min_def]),
   (c4_theorem (mkResult 30 false 1 false)).2
      (by norm_num [mkResult, min_def])⟩

/-- Filtering by an exact relevance value commutes with one ordered
insertion: an element is inserted before every strictly-smaller key and
after every strictly-larger one, so the subsequence of any fixed
relevance value is unchanged apart from the inserted head. -/
theorem filter_orderedInsert_relevance (q : ℚ) (x : SearchResult)
    (l : List SearchResult) :
    (List.orderedInsert relOrder x l).filter (fun r => decide (r.relevance = q))
      = ((x :: l).filter (fun r => decide (r.relevance = q))) := by
  induction l with
  | nil => simp [List.orderedInsert]
  | cons y l ih =>
      by_cases hxy : relOrder x y
      · rw [List.orderedInsert, if_pos hxy]
      · rw [List.orderedInsert, if_neg hxy]
        by_cases hy : y.relevance = q
        · have hx : ¬ x.relevance = q := by
            intro hx
            exact hxy (le_of_eq (hy.trans hx.symm))
          simp [List.filter_cons, hy, hx, ih]
        · simp [List.filter_cons, hy, ih]

/-- Filtering by an exact relevance value commutes with the whole
insertion sort: ties keep their original relative order. -/
theorem filter_insertionSort_relevance (q : ℚ) (l : List SearchResult) :
    (List.insertionSort relOrder l).filter (fun r => decide (r.relevance = q))
      = l.filter (fun r => decide (r.relevance = q)) := by
  induction l with
  | nil => rfl
  | cons x l ih =>
      rw [List.insertionSort, filter_orderedInsert_relevance]
      simp [List.filter_cons, ih]

/-- C5: when the response items all parse, `suggest_city` returns a
permutation of the parsed results that is sorted by relevance in
descending order (`relOrder`), and the sort is stable: for every
relevance value `q`, the results with relevance `q` appear in the same
relative order as in the raw response list. -/
theorem c5_theorem (items : List Json) (parsed results : List SearchResult)
    (hp : items.mapM parseSearchResult = Except.ok parsed)
    (hs : suggest_city items = Except.ok results) :
    results.Perm parsed
    ∧ List.Sorted relOrder results
    ∧ ∀ q : ℚ, results.filter (fun r => decide (r.relevance = q))
        = parsed.filter (fun r => decide (r.relevance = q)) := by
  have hres : suggest_city items
      = Except.ok (List.insertionSort relOrder parsed) := by
    unfold suggest_city
    rw [hp]
    rfl
  rw [hres] at hs
  injection hs with hs
  subst hs
  exact ⟨List.perm_insertionSort relOrder parsed,
         List.sorted_insertionSort relOrder parsed,
         fun q => filter_insertionSort_relevance q parsed⟩

/-- C5 witness: two equal-relevance items (both score 50, no bonuses)
parse and come back in their original response order. -/
theorem c5_witness :
    ([resA, resB] : List SearchResult).Perm [resA, resB]
    ∧ List.Sorted relOrder [resA, resB]
    ∧ ([resA, resB] : List SearchResult).filter
          (fun r => decide (r.relevance = (1/2 : ℚ)))
        = ([resA, resB] : List SearchResult).filter
          (fun r => decide (r.relevance = (1/2 : ℚ))) := by
  have hp : [itemA, itemB].mapM parseSearchResult = Except.ok [resA, resB] := by
    rfl
  have hAB : relOrder resA resB := by
    unfold relOrder
    rw [relevance_formula, relevance_formula]
    norm_num [resA, resB]
  have hsort : List.insertionSort relOrder [resA, resB] = [resA, resB] := by
    show List.orderedInsert relOrder resA (List.insertionSort relOrder [resB]) = _
    have h1 : List.insertionSort relOrder [resB] = [resB] := rfl
    rw [h1, List.orderedInsert, if_pos hAB]
  have hs : suggest_city [itemA, itemB] = Except.ok [resA, resB] := by
    unfold suggest_city
    rw [hp]
    show Except.ok (List.insertionSort relOrder [resA, resB]) = _
    rw [hsort]
  have h := c5_theorem [itemA, itemB] [resA, resB] [resA, resB] hp hs
  exact ⟨h.1, h.2.1, h.2.2 (1/2)⟩

/-- C6: `get_best_match` returns exactly the head of the `suggest_city`
list for the same response, and the absence value `none` (not an error)
when that list is empty. -/
theorem c6_theorem (response : List Json) :
    (∀ results, suggest_city response = Except.ok results →
        get_best_match response = Except.ok results.head?)
    ∧ (suggest_city response = Except.ok [] →
        get_best_match response = Except.ok none) := by
  constructor
  · intro results h
    unfold get_best_match
    rw [h]
    cases results <;> rfl
  · intro h
    unfold get_best_match
    rw [h]
    rfl

/-- C6 witness: a one-item response yields that item as best match; the
empty response yields the absence value. -/
theorem c6_witness :
    get_best_match [itemA] = Except.ok (some resA)
    ∧ get_best_match ([] : List Json) = Except.ok none := by
  have h1 : suggest_city [itemA] = Except.ok [resA] := by rfl
  have h0 : suggest_city ([] : List Json) = Except.ok ([] : List SearchResult) := by
    rfl
  exact ⟨(c6_theorem [itemA]).1 [resA] h1, (c6_theorem []).2 h0⟩

/-- C3: the retry policy makes at most 3 total attempts, treats both
failure kinds (transport and JSON-decode) identically, and waits
`min(max(base*2^n, 4), 10)` between attempts.  A transport that fails
twice (with either failure kind) and succeeds on the 3rd attempt yields
the successful body with exactly 2 recorded waits (both 4 units); one
that fails on all attempts propagates the final failure, and the outcome
never depends on attempts beyond the first 3. -/
theorem c3_theorem :
    (∀ (e : ReqError) (v : Json),
        make_request (fun k => if k < 2 then Except.error e else Except.ok v)
          = (Except.ok v, [4, 4]))
    ∧ (∀ err : Nat → ReqError,
        make_request (fun k => Except.error (err k))
          = (Except.error (err 2), [4, 4]))
    ∧ (∀ t u, (∀ k, k < 3 → t k = u k) → make_request t = make_request u)
    ∧ backoff_wait 1 0 = 4 ∧ backoff_wait 1 1 = 4 := by
  refine ⟨fun e v => rfl, fun err => rfl, ?_, rfl, rfl⟩
  intro t u h
  have e0 := h 0 (by norm_num)
  have e1 := h 1 (by norm_num)
  have e2 := h 2 (by norm_num)
  simp only [make_request, retry_go, e0, e1, e2]

/-- C3 witness: an always-succeeding transport is indistinguishable from
one that only succeeds on its first 3 attempts. -/
theorem c3_witness :
    make_request (fun _ => Except.ok (Json.arr []))
      = make_request (fun k =>
          if k < 3 then Except.ok (Json.arr []) else Except.error ReqError.transport) :=
  c3_theorem.2.2.1 _ _ (fun k hk => by simp [hk])

/-- Bind on `Except` succeeds exactly when both steps succeed. -/
theorem except_bind_ok {α β : Type} {x : Except String α} {f : α → Except String β}
    {b : β} :
    (x >>= f) = Except.ok b ↔ ∃ a, x = Except.ok a ∧ f a = Except.ok b := by
  cases x <;> simp [Bind.bind, Except.bind]

/-- Bind on a successful `Except` value reduces to the continuation. -/
theorem except_ok_bind {α β : Type} (a : α) (f : α → Except String β) :
    (Except.ok a >>= f) = f a := rfl

/-- A successful strict lookup means the key is present. -/
theorem getOpt_of_getField {d : Json} {k : String} {v : Json}
    (h : d.getField k = Except.ok v) : d.getOpt k = some v := by
  cases d <;> simp only [Json.getField] at h
  case obj fields =>
    cases hl : fields.lookup k with
    | none => rw [hl] at h; exact absurd h (by simp)
    | some w => rw [hl] at h; injection h with h; subst h; simpa [Json.getOpt] using hl
  all_goals exact absurd h (by simp)

/-- If `parse_city` succeeds, every required key was present in the raw
record. -/
theorem parse_city_ok_getOpt {d : Json} {c : City}
    (h : parse_city d = Except.ok c) :
    ∀ k ∈ cityRequiredKeys, (d.getOpt k).isSome = true := by
  rw [parse_city] at h
  simp only [except_bind_ok] at h
  obtain ⟨a1, h1, a2, hh2, lat, hh3, a3, h4, a4, hh5, lon, hh6,
          a5, h7, idv, hh8, a6, h9, uu, hh10, a7, h11, nm, hh12,
          a8, h13, co, hh14, a9, h15, la, hh16, a10, h17, sl, hh18,
          a11, h19, sv, hh20, a12, h21, tc, hh22, hpure⟩ := h
  intro k hk
  simp only [cityRequiredKeys, List.mem_cons, List.mem_singleton] at hk
  rcases hk with rfl | rfl | rfl | rfl | rfl | rfl | rfl | rfl | rfl | hk
  · rw [getOpt_of_getField h1]; rfl
  · rw [getOpt_of_getField h7]; rfl
  · rw [getOpt_of_getField h9]; rfl
  · rw [getOpt_of_getField h11]; rfl
  · rw [getOpt_of_getField h13]; rfl
  · rw [getOpt_of_getField h15]; rfl
  · rw [getOpt_of_getField h17]; rfl
  · rw [getOpt_of_getField h19]; rfl
  · rw [getOpt_of_getField h21]; rfl
  · exact absurd hk (List.not_mem_nil k)

/-- If the `suggest_city` per-item parser succeeds, every required key
was present in the raw item. -/
theorem parseSearchResult_ok_getOpt {item : Json} {r : SearchResult}
    (h : parseSearchResult item = Except.ok r) :
    ∀ k ∈ resultRequiredKeys, (item.getOpt k).isSome = true := by
  rw [parseSearchResult] at h
  simp only [except_bind_ok] at h
  obtain ⟨a1, h1, a2, hh2, lat, hh3, a3, h4, a4, hh5, lon, hh6,
          sraw, h7, sts, h8, a5, h9, idv, h10, a6, h11, nm, h12,
          a7, h13, co, h14, hrest⟩ := h
  have hafter : ∃ v1, item.getField "score" = Except.ok v1
      ∧ ∃ v2, item.getField "legacy_id" = Except.ok v2
      ∧ ∃ v3, item.getField "has_train_station" = Except.ok v3
      ∧ ∃ v4, item.getField "is_flixbus_city" = Except.ok v4
      ∧ ∃ v5, item.getField "timezone_offset_seconds" = Except.ok v5 := by
    cases hop : item.getOpt "district" with
    | none =>
        rw [hop] at hrest
        simp only [except_bind_ok] at hrest
        obtain ⟨dv, hd, a8, h15, sc, h16, a9, h17, lg, h18, a10, h19, ht, h20,
                a11, h21, fx, h22, a12, h23, tz, h24, hpure⟩ := hrest
        exact ⟨a8, h15, a9, h17, a10, h19, a11, h21, a12, h23⟩
    | some v =>
        rw [hop] at hrest
        cases v with
        | null =>
            simp only [except_bind_ok] at hrest
            obtain ⟨dv, hd, a8, h15, sc, h16, a9, h17, lg, h18, a10, h19, ht, h20,
                    a11, h21, fx, h22, a12, h23, tz, h24, hpure⟩ := hrest
            exact ⟨a8, h15, a9, h17, a10, h19, a11, h21, a12, h23⟩
        | str s =>
            simp only [except_bind_ok] at hrest
            obtain ⟨s2, hs, dv, hd, a8, h15, sc, h16, a9, h17, lg, h18, a10, h19,
                    ht, h20, a11, h21, fx, h22, a12, h23, tz, h24, hpure⟩ := hrest
            exact ⟨a8, h15, a9, h17, a10, h19, a11, h21, a12, h23⟩
        | bool b =>
            simp only [except_bind_ok] at hrest
            obtain ⟨s2, hs, hrest2⟩ := hrest
            exact absurd hs (by simp [Json.asStr])
        | num q =>
            simp only [except_bind_ok] at hrest
            obtain ⟨s2, hs, hrest2⟩ := hrest
            exact absurd hs (by simp [Json.asStr])
        | arr l =>
            simp only [except_bind_ok] at hrest
            obtain ⟨s2, hs, hrest2⟩ := hrest
            exact absurd hs (by simp [Json.asStr])
        | obj fs =>
            simp only [except_bind_ok] at hrest
            obtain ⟨s2, hs, hrest2⟩ := hrest
            exact absurd hs (by simp [Json.asStr])
  obtain ⟨v1, hv1, v2, hv2, v3, hv3, v4, hv4, v5, hv5⟩ := hafter
  intro k hk
  simp only [resultRequiredKeys, List.mem_cons, List.mem_singleton] at hk
  rcases hk with rfl | rfl | rfl | rfl | rfl | rfl | rfl | rfl | rfl | hk
  · rw [getOpt_of_getField h1]; rfl
  · rw [getOpt_of_getField h9]; rfl
  · rw [getOpt_of_getField h11]; rfl
  · rw [getOpt_of_getField h13]; rfl
  · rw [getOpt_of_getField hv1]; rfl
  · rw [getOpt_of_getField hv2]; rfl
  · rw [getOpt_of_getField hv3]; rfl
  · rw [getOpt_of_getField hv4]; rfl
  · rw [getOpt_of_getField hv5]; rfl
  · exact absurd hk (List.not_mem_nil k)

/-- When the optional `district` key is absent, a successful parse
stores the absence value `none`, not a sentinel. -/
theorem district_none_of_parse {item : Json} {r : SearchResult}
    (hok : parseSearchResult item = Except.ok r)
    (hnone : item.getOpt "district" = none) : r.district = none := by
  rw [parseSearchResult] at hok
  simp only [except_bind_ok] at hok
  obtain ⟨a1, h1, a2, hh2, lat, hh3, a3, h4, a4, hh5, lon, hh6,
          sraw, h7, sts, h8, a5, h9, idv, h10, a6, h11, nm, h12,
          a7, h13, co, h14, hrest⟩ := hok
  rw [hnone] at hrest
  simp only [except_bind_ok] at hrest
  obtain ⟨dv, hd, a8, h15, sc, h16, a9, h17, lg, h18, a10, h19, ht, h20,
          a11, h21, fx, h22, a12, h23, tz, h24, hpure⟩ := hrest
  simp only [pure, Except.pure, Except.ok.injEq] at hd hpure
  subst hd
  rw [← hpure]

/-- C7: a record missing any required key makes `parse_city` (and the
`suggest_city` per-item parser) fail — no partial object is returned; an
absent optional `district` parses to the explicit absence value `none`;
and a parse failure is never retried: with a transport succeeding on its
first attempt, a parse error surfaces with zero recorded backoff waits. -/
theorem c7_theorem :
    (∀ (d : Json) (k : String), k ∈ cityRequiredKeys → d.getOpt k = none →
        (parse_city d).isOk = false)
    ∧ (∀ (item : Json) (k : String), k ∈ resultRequiredKeys → item.getOpt k = none →
        (parseSearchResult item).isOk = false)
    ∧ (∀ (item : Json) (r : SearchResult), parseSearchResult item = Except.ok r →
        item.getOpt "district" = none → r.district = none)
    ∧ (∀ (transport : Nat → Except ReqError Json) (items : List Json) (msg : String),
        transport 0 = Except.ok (Json.arr items) →
        suggest_city items = Except.error msg →
        suggest_city_pipeline transport = (Except.error (Sum.inr msg), [])) := by
  refine ⟨?_, ?_, ?_, ?_⟩
  · intro d k hk hnone
    cases hok : parse_city d with
    | error e => rfl
    | ok c =>
        have hsome := parse_city_ok_getOpt hok k hk
        rw [hnone] at hsome
        exact absurd hsome (by simp)
  · intro item k hk hnone
    cases hok : parseSearchResult item with
    | error e => rfl
    | ok r =>
        have hsome := parseSearchResult_ok_getOpt hok k hk
        rw [hnone] at hsome
        exact absurd hsome (by simp)
  · intro item r hok hnone
    exact district_none_of_parse hok hnone
  · intro t items msg h0 hpe
    simp only [suggest_city_pipeline, make_request, retry_go, h0, hpe]

/-- C7 witness: the empty record fails both parsers; `itemA` (which has
no district key) parses with district `none`; and a first-attempt
response whose single item is the empty record produces a `KeyError`
with no backoff waits. -/
theorem c7_witness :
    (parse_city (Json.obj [])).isOk = false
    ∧ (parseSearchResult (Json.obj [])).isOk = false
    ∧ resA.district = none
    ∧ suggest_city_pipeline (fun _ => Except.ok (Json.arr [Json.obj []]))
        = (Except.error (Sum.inr "KeyError: location"), []) :=
  ⟨c7_theorem.1 (Json.obj []) "location" (by simp [cityRequiredKeys]) rfl,
   c7_theorem.2.1 (Json.obj []) "location" (by simp [resultRequiredKeys]) rfl,
   c7_theorem.2.2.1 itemA resA (by rfl) rfl,
   c7_theorem.2.2.2 _ [Json.obj []] "KeyError: location" rfl (by rfl)⟩

/-- Parsing back a list of string nodes returns the original strings
(auxiliary loop form). -/
theorem asStr_loop (l acc : List String) :
    List.mapM.loop Json.asStr (l.map Json.str) acc = Except.ok (acc.reverse ++ l) := by
  induction l generalizing acc with
  | nil => simp [List.mapM.loop, pure, Except.pure]
  | cons x l ih =>
      simp [List.mapM.loop, Json.asStr, except_ok_bind, ih, List.reverse_cons]

/-- Parsing back a list of string nodes returns the original strings. -/
theorem mapM_asStr_map (l : List String) :
    (l.map Json.str).mapM Json.asStr = Except.ok l := by
  simpa [List.mapM] using asStr_loop l []

/-- C8: round-trip — for every record carrying all required city keys
with suitably typed values, `parse_city` succeeds and every field of the
resulting `City` (id, uuid, name, country, language, location.lat,
location.lon, slug, search_volume, transportation_category) equals the
corresponding value of the source record. -/
theorem c8_theorem (d loc : Json) (i : ℤ) (uuid name country language slug : String)
    (sv : ℤ) (tc : List String) (lat lon : ℚ)
    (h1 : d.getField "location" = Except.ok loc)
    (h2 : loc.getField "lat" = Except.ok (.num lat))
    (h3 : loc.getField "lon" = Except.ok (.num lon))
    (h4 : d.getField "id" = Except.ok (.num (i : ℚ)))
    (h5 : d.getField "uuid" = Except.ok (.str uuid))
    (h6 : d.getField "name" = Except.ok (.str name))
    (h7 : d.getField "country" = Except.ok (.str country))
    (h8 : d.getField "language" = Except.ok (.str language))
    (h9 : d.getField "slug" = Except.ok (.str slug))
    (h10 : d.getField "search_volume" = Except.ok (.num (sv : ℚ)))
    (h11 : d.getField "transportation_category" = Except.ok (.arr (tc.map Json.str))) :
    parse_city d = Except.ok ⟨i, uuid, name, country, language, ⟨lat, lon⟩,
                              slug, sv, tc⟩ := by
  rw [parse_city]
  simp only [h1, h2, h3, h4, h5, h6, h7, h8, h9, h10, h11, except_ok_bind,
             Json.asRat, Json.asStr, Json.asInt, Json.asStrList,
             Rat.den_intCast, Rat.num_intCast, mapM_asStr_map,
             if_pos, pure, Except.pure]

/-- C8 witness: the round-trip evaluated on a concrete well-formed city
record. -/
theorem c8_witness :
    parse_city cityJsonA
      = Except.ok ⟨7, "u-7", "Utrecht", "NL", "nl", ⟨52, 5⟩, "utrecht", 900,
                   ["bus", "train"]⟩ := by
  have e7 : ((7 : ℤ) : ℚ) = (7 : ℚ) := by norm_num
  have e900 : ((900 : ℤ) : ℚ) = (900 : ℚ) := by norm_num
  have h4 : cityJsonA.getField "id" = Except.ok (.num ((7 : ℤ) : ℚ)) := by
    rw [e7]; rfl
  have h10 : cityJsonA.getField "search_volume"
      = Except.ok (.num ((900 : ℤ) : ℚ)) := by
    rw [e900]; rfl
  exact c8_theorem cityJsonA (Json.obj [("lat", .num 52), ("lon", .num 5)])
    7 "u-7" "Utrecht" "NL" "nl" "utrecht" 900 ["bus", "train"] 52 5
    rfl rfl rfl h4 rfl rfl rfl rfl rfl h10 rfl

/-- Exact output length of the decimal digit loop behind `Nat.repr`:
with enough fuel it prepends exactly `log 10 n + 1` digit characters. -/
theorem toDigitsCore_length_exact (f : Nat) :
    ∀ (n : Nat) (l : List Char), 0 < n → n < f →
    (Nat.toDigitsCore 10 f n l).length = l.length + Nat.log 10 n + 1 := by
  induction f with
  | zero => intro n l h0 hf; omega
  | succ f ih =>
      intro n l h0 hf
      rw [Nat.toDigitsCore]
      by_cases hd : n / 10 = 0
      · have hn10 : n < 10 := by omega
        have hlog : Nat.log 10 n = 0 := Nat.log_eq_zero_iff.mpr (Or.inl hn10)
        simp [hd, hlog]
      · have h10 : 10 ≤ n := by omega
        have hlt : n / 10 < f := by omega
        simp only [hd, if_false]
        rw [ih (n / 10) (Nat.digitChar (n % 10) :: l) (by omega) hlt]
        have hlog : Nat.log 10 (n / 10) = Nat.log 10 n - 1 := Nat.log_div_base 10 n
        have hpos : 0 < Nat.log 10 n := Nat.log_pos (by norm_num) h10
        simp only [List.length_cons]
        omega

/-- The decimal representation of a positive natural has exactly
`log 10 n + 1` characters. -/
theorem repr_length_exact {n : Nat} (h : 0 < n) :
    (Nat.repr n).length = Nat.log 10 n + 1 := by
  have hs : (Nat.repr n).length = (Nat.toDigitsCore 10 (n + 1) n []).length := rfl
  rw [hs, toDigitsCore_length_exact (n + 1) n [] h (by omega)]
  simp

/-- A year between 1000 and 9999 prints as exactly 4 digits. -/
theorem toString_length_four {y : Nat} (h1 : 1000 ≤ y) (h2 : y < 10000) :
    (toString y).length = 4 := by
  have ht : toString y = Nat.repr y := rfl
  rw [ht, repr_length_exact (by omega)]
  have hlog : Nat.log 10 y = 3 :=
    Nat.log_eq_of_pow_le_of_lt_pow (by norm_num; omega) (by norm_num; omega)
  omega

/-- Day and month numbers below 100 pad to exactly 2 characters. -/
theorem pad2_length : ∀ n, n < 100 → (pad2 n).length = 2 := by decide

/-- C9: the `search_trips` params mapping carries `departure_date` in
day-dot-month-dot-year order with `%d`/`%m` zero-padded to 2 digits and
a 4-digit year for calendar years 1000-9999; `products` as the JSON
object text `\x7b"adult": N\x7d`; `search_by` as `"cities"`; and the
three boolean options encoded as the integers 0 or 1. -/
theorem c9_theorem (f t : String) (d : Date) (n : Int) (cur lo : String)
    (am dd dg : Bool) :
    (search_trips_params f t d n cur lo am dd dg).lookup "departure_date"
        = some (.s (pad2 d.day ++ "." ++ pad2 d.month ++ "." ++ toString d.year))
    ∧ (search_trips_params f t d n cur lo am dd dg).lookup "products"
        = some (.s ("\x7b\"adult\": " ++ toString n ++ "\x7d"))
    ∧ (search_trips_params f t d n cur lo am dd dg).lookup "search_by"
        = some (.s "cities")
    ∧ (search_trips_params f t d n cur lo am dd dg).lookup "include_after_midnight_rides"
        = some (.i (if am then 1 else 0))
    ∧ (search_trips_params f t d n cur lo am dd dg).lookup "disable_distribusion_trips"
        = some (.i (if dd then 1 else 0))
    ∧ (search_trips_params f t d n cur lo am dd dg).lookup "disable_global_trips"
        = some (.i (if dg then 1 else 0))
    ∧ (d.day < 100 → (pad2 d.day).length = 2)
    ∧ (d.month < 100 → (pad2 d.month).length = 2)
    ∧ (1000 ≤ d.year → d.year < 10000 → (toString d.year).length = 4) :=
  ⟨rfl, rfl, rfl, rfl, rfl, rfl,
   fun h => pad2_length d.day h, fun h => pad2_length d.month h,
   fun h1 h2 => toString_length_four h1 h2⟩

/-- C9 witness: the params for a trip on 29 October 2024 with one adult
carry the formatted date, the products object and the flag encodings. -/
theorem c9_witness :
    (search_trips_params "from-uuid" "to-uuid" ⟨2024, 10, 29⟩ 1 "EUR" "en"
        true false false).lookup "departure_date" = some (.s "29.10.2024")
    ∧ (search_trips_params "from-uuid" "to-uuid" ⟨2024, 10, 29⟩ 1 "EUR" "en"
        true false false).lookup "products" = some (.s "\x7b\"adult\": 1\x7d")
    ∧ (search_trips_params "from-uuid" "to-uuid" ⟨2024, 10, 29⟩ 1 "EUR" "en"
        true false false).lookup "search_by" = some (.s "cities")
    ∧ (pad2 29).length = 2 ∧ (toString 2024).length = 4 := by
  have h := c9_theorem "from-uuid" "to-uuid" ⟨2024, 10, 29⟩ 1 "EUR" "en"
    true false false
  exact ⟨h.1, h.2.1, h.2.2.1, h.2.2.2.2.2.2.1 (by norm_num),
         h.2.2.2.2.2.2.2.2 (by norm_num) (by norm_num)⟩

/-- C10: `get_search_analytics` substitutes the fixed 7-metric default
set only for the absence value (`metrics=None`); an explicitly supplied
empty list produces an empty comma-joined `metrics` parameter, not the
default set. -/
theorem c10_theorem (f t : String) (sd ed : Date) (g cur lo : String) :
    (get_search_analytics_params f t sd ed g none cur lo).lookup "metrics"
        = some (.s (String.intercalate "," default_metrics))
    ∧ String.intercalate "," default_metrics
        = "search_volume,conversion_rate,average_price,occupancy_rate,cancellation_rate,mobile_searches,desktop_searches"
    ∧ default_metrics.length = 7
    ∧ (get_search_analytics_params f t sd ed g (some []) cur lo).lookup "metrics"
        = some (.s "") :=
  ⟨rfl, rfl, rfl, rfl⟩
